import Mathlib

/-!
Shallow embedding of the HTTP/2 frame codec in `frame/frame.go`.

Bytes are modelled as `Nat` values below 256; a byte stream is a `List Nat`.
`binary.Read` / `binary.Write` with `binary.BigEndian` on fixed-width values
are modelled by explicit big-endian byte (de)composition.  `binary.Read` on a
struct reads every field at its full declared width, in declaration order;
`binary.Write` writes them the same way.  Machine-integer wraparound is
modelled with explicit `% 2^32`.  A Go slice expression `s[:k]` with `k`
outside `[0, len(s)]` panics at run time; that outcome is modelled as an
explicit `sliceBounds` error so decoding stays total.
-/

namespace Http2

/-- Big-endian value of a byte list: `foldl (acc*256 + byte)`. -/
def beVal (bs : List Nat) : Nat :=
  bs.foldl (fun acc b => acc * 256 + b % 256) 0

/-- The four big-endian bytes of a 32-bit word (as `binary.Write` emits a `uint32`). -/
def be32 (n : Nat) : List Nat :=
  [n / 16777216 % 256, n / 65536 % 256, n / 256 % 256, n % 256]

/-- Wrapping 32-bit subtraction, as Go `uint32` arithmetic. -/
def sub32 (a b : Nat) : Nat :=
  (a + (4294967296 - b % 4294967296)) % 4294967296

/-- Outcomes of a decode that does not return a value: a short read from the
source (`io.EOF` / `io.ErrUnexpectedEOF` out of `binary.Read`), or a Go
runtime panic from an out-of-range slice expression. -/
inductive ReadErr where
  | shortRead
  | sliceBounds
deriving DecidableEq

/-- Read exactly `n` bytes from the stream, as `binary.Read` into an `n`-byte
destination: all-or-nothing. -/
def readBytes (n : Nat) (input : List Nat) : Except ReadErr (List Nat × List Nat) :=
  if n ≤ input.length then .ok (input.take n, input.drop n) else .error .shortRead

/-- Go slice expression `data[:k]` where `k` may be a negative `int`:
in range it takes the prefix, otherwise the program panics. -/
def goSlice (data : List Nat) (k : Int) : Except ReadErr (List Nat) :=
  if 0 ≤ k ∧ k ≤ (data.length : Int) then .ok (data.take k.toNat) else .error .sliceBounds

/-! Flag constants from the source. -/

def UNSET : Nat := 0x0
def END_STREAM : Nat := 0x1
def ACK : Nat := 0x1
def END_HEADERS : Nat := 0x4
def PADDED : Nat := 0x8
def PRIORITY : Nat := 0x20

/-! Frame type codes. -/

def DataFrameType : Nat := 0x0
def HeadersFrameType : Nat := 0x1
def RstStreamFrameType : Nat := 0x3
def SettingsFrameType : Nat := 0x4

/-- `FrameHeader`: `Length uint32`, `Type uint8`, `Flags uint8`, `StreamId uint32`. -/
structure FrameHeader where
  length : Nat
  type : Nat
  flags : Nat
  streamId : Nat
deriving DecidableEq

/-- `FrameHeader.Write`: `binary.Write(w, binary.BigEndian, fh)` writes every
struct field at its declared width in order: 4-byte length, 1-byte type,
1-byte flags, 4-byte stream id. -/
def FrameHeader.write (fh : FrameHeader) : List Nat :=
  be32 fh.length ++ [fh.type % 256, fh.flags % 256] ++ be32 fh.streamId

/-- `FrameHeader.Read`: `binary.Read(r, binary.BigEndian, fh)` fills every
struct field at its declared width in order, with no masking. -/
def FrameHeader.read (input : List Nat) : Except ReadErr (FrameHeader × List Nat) := do
  let (lenB, r1) ← readBytes 4 input
  let (tB, r2) ← readBytes 1 r1
  let (fB, r3) ← readBytes 1 r2
  let (sB, r4) ← readBytes 4 r3
  .ok ({ length := beVal lenB, type := beVal tB, flags := beVal fB, streamId := beVal sB }, r4)

/-- `DataFrame`: header plus `Data []byte`. -/
structure DataFrame where
  header : FrameHeader
  data : List Nat
deriving DecidableEq

/-- `DataFrame.Read`: the outer `padLen` (`uint16`) is never assigned — the
`uint8` read inside the `if` shadows it — and the guard compares
`Flags&PADDED` with `1` even though `PADDED` is `0x8`, so the padded branch
is unreachable and the final slice trims zero bytes. -/
def DataFrame.read (h : FrameHeader) (input : List Nat) :
    Except ReadErr (DataFrame × List Nat) := do
  let padLen : Nat := 0
  let (frameLen, rest) ←
    if h.flags &&& PADDED = 1 then do
      let (_shadowedPadLen, r) ← readBytes 1 input
      pure (sub32 h.length 1, r)
    else
      pure (h.length, input)
  let (data, rest2) ← readBytes frameLen rest
  let d ← goSlice data ((data.length : Int) - (padLen : Int))
  .ok ({ header := h, data := d }, rest2)

/-- `DataFrame.Write`: header then the data bytes verbatim. -/
def DataFrame.write (f : DataFrame) : List Nat :=
  f.header.write ++ f.data.map (fun b => b % 256)

/-- `HeadersFrame`: header, `Priority uint32`, `HeaderBlock []byte`. -/
structure HeadersFrame where
  header : FrameHeader
  priority : Nat
  headerBlock : List Nat
deriving DecidableEq

/-- `HeadersFrame.Read`: when `PADDED` is set a pad-length byte is read and
`frameLen` decremented (wrapping `uint32`); when `PRIORITY` is set 4 priority
bytes are read and `frameLen` decremented by 4; then `frameLen` bytes are
read and the trailing `padLen` bytes are sliced off with
`data[:len(data)-int(padLen)]`, which panics when `padLen > len(data)`. -/
def HeadersFrame.read (h : FrameHeader) (input : List Nat) :
    Except ReadErr (HeadersFrame × List Nat) := do
  let (padLen, frameLen1, rest1) ←
    if h.flags &&& PADDED = PADDED then do
      let (p, r) ← readBytes 1 input
      pure (beVal p, sub32 h.length 1, r)
    else
      pure ((0 : Nat), h.length, input)
  let (prio, frameLen2, rest2) ←
    if h.flags &&& PRIORITY = PRIORITY then do
      let (pb, r) ← readBytes 4 rest1
      pure (beVal pb, sub32 frameLen1 4, r)
    else
      pure ((0 : Nat), frameLen1, rest1)
  let (data, rest3) ← readBytes frameLen2 rest2
  let hb ← goSlice data ((data.length : Int) - (padLen : Int))
  .ok ({ header := h, priority := prio, headerBlock := hb }, rest3)

/-- `HeadersFrame.Write`: header, then the priority word only when the
`PRIORITY` flag is set, then the header block; no pad-length byte is ever
written. -/
def HeadersFrame.write (f : HeadersFrame) : List Nat :=
  f.header.write ++
    (if f.header.flags &&& PRIORITY = PRIORITY then be32 f.priority else []) ++
    f.headerBlock.map (fun b => b % 256)

/-- Composition `read(write f)` for a HEADERS frame: serialize, re-read the
header, then decode the payload with it. -/
def headersFrameRoundTrip (f : HeadersFrame) : Except ReadErr (HeadersFrame × List Nat) := do
  let (h, rest) ← FrameHeader.read f.write
  HeadersFrame.read h rest

/-- `RstStreamFrame`: header plus a 32-bit error code. -/
structure RstStreamFrame where
  header : FrameHeader
  errorCode : Nat
deriving DecidableEq

/-- `RstStreamFrame.Read`: reads one 4-byte big-endian error code; the
declared header length is never consulted. -/
def RstStreamFrame.read (h : FrameHeader) (input : List Nat) :
    Except ReadErr (RstStreamFrame × List Nat) := do
  let (ec, rest) ← readBytes 4 input
  .ok ({ header := h, errorCode := beVal ec }, rest)

/-- `RstStreamFrame.Write`: header then the 4-byte big-endian error code
(`binary.Write` of the `uint32`); the stored header length is emitted as-is. -/
def RstStreamFrame.write (f : RstStreamFrame) : List Nat :=
  f.header.write ++ be32 f.errorCode

/-- A settings entry: `SettingsId uint8` (one byte in the source) and a
32-bit value. -/
structure Setting where
  settingsId : Nat
  value : Nat
deriving DecidableEq

/-- Loop body of `SettingsFrame.Read`: `niv` iterations, each reading a
1-byte id (`SettingsId` is `uint8`) and a 4-byte value. -/
def readSettingsLoop : Nat → List Nat → List Setting →
    Except ReadErr (List Setting × List Nat)
  | 0, input, acc => .ok (acc, input)
  | niv + 1, input, acc => do
    let (idB, r1) ← readBytes 1 input
    let (vB, r2) ← readBytes 4 r1
    readSettingsLoop niv r2 (acc ++ [{ settingsId := beVal idB, value := beVal vB }])

/-- `SettingsFrame`: header plus the ordered settings list. -/
structure SettingsFrame where
  header : FrameHeader
  settings : List Setting
deriving DecidableEq

/-- `SettingsFrame.Read`: `for niv := frame.Length / 5; niv > 0; niv--`,
appending each decoded 5-byte entry; no ACK check and no divisibility
check on the length. -/
def SettingsFrame.read (h : FrameHeader) (input : List Nat) :
    Except ReadErr (SettingsFrame × List Nat) := do
  let (s, rest) ← readSettingsLoop (h.length / 5) input []
  .ok ({ header := h, settings := s }, rest)

/-- `NewSettingsFrame`: header length is computed as `5 * len(settings)`. -/
def NewSettingsFrame (flags : Nat) (settings : List Setting) (streamId : Nat) :
    SettingsFrame :=
  { header := { length := 5 * settings.length, type := SettingsFrameType,
                flags := flags, streamId := streamId },
    settings := settings }

/-- `SettingsFrame.Write`: header then, per entry, the 1-byte id and the
4-byte big-endian value. -/
def SettingsFrame.write (f : SettingsFrame) : List Nat :=
  f.header.write ++ (f.settings.map (fun s => [s.settingsId % 256] ++ be32 s.value)).flatten

/-! Error codes.  The constants run `NO_ERROR = 0` through
`INADEQUATE_SECURITY = 12`; the string table in `ErrorCode.String` lists
`"PROTOCOL_ERROR"` twice, so it has 14 entries and every name from index 2
on sits one slot later than its constant. -/

def NO_ERROR : Nat := 0
def PROTOCOL_ERROR : Nat := 1
def INTERNAL_ERROR : Nat := 2
def FLOW_CONTROL_ERROR : Nat := 3
def SETTINGS_TIMEOUT : Nat := 4
def STREAM_CLOSED : Nat := 5
def FRAME_SIZE_ERROR : Nat := 6
def REFUSED_STREAM : Nat := 7
def CANCEL : Nat := 8
def COMPRESSION_ERROR : Nat := 9
def CONNECT_ERROR : Nat := 10
def ENHANCE_YOUR_CALM : Nat := 11
def INADEQUATE_SECURITY : Nat := 12

/-- The literal slice inside `ErrorCode.String`, verbatim, duplicate included. -/
def errorCodeTable : List String :=
  ["NO_ERROR",
   "PROTOCOL_ERROR",
   "PROTOCOL_ERROR",
   "INTERNAL_ERROR",
   "FLOW_CONTROL_ERROR",
   "SETTINGS_TIMEOUT",
   "STREAM_CLOSED",
   "FRAME_SIZE_ERROR",
   "REFUSED_STREAM",
   "CANCEL",
   "COMPRESSION_ERROR",
   "CONNECT_ERROR",
   "ENHANCE_YOUR_CALM",
   "INADEQUATE_SECURITY"]

/-- `ErrorCode.String`: `errors[int(e)]`; indexing past the table panics in
Go, so the total embedding returns `none` there. -/
def errorCodeString (e : Nat) : Option String :=
  errorCodeTable.get? e

/-- The literal slice inside `FrameName`. -/
def frameNameTable : List String :=
  ["DATA",
   "HEADERS",
   "PRIORITY",
   "RST_STREAM",
   "SETTINGS",
   "PUSH_PROMISE",
   "PING",
   "GOAWAY",
   "WINDOW_UPDATE",
   "CONTINUATION"]

/-- `FrameName`: `names[i]`; indexing past the 10-entry table panics in Go,
so the total embedding returns `none` there. -/
def FrameName (i : Nat) : Option String :=
  frameNameTable.get? i

/-! Helper lemmas. -/

/-- The header serializer always emits exactly 10 bytes. -/
theorem frameHeader_write_length (fh : FrameHeader) : fh.write.length = 10 := by
  simp [FrameHeader.write, be32]

/-- Recomposing the four big-endian bytes of a word recovers it mod `2^32`. -/
theorem beVal_be32 (n : Nat) : beVal (be32 n) = n % 4294967296 := by
  simp only [beVal, be32, List.foldl]
  omega

/-- Any byte stream of the form `header.write ++ payload` carries the
header's length field in its first 4 bytes and the payload from byte 10 on. -/
theorem headerWrite_prefix (fh : FrameHeader) (rest : List Nat) :
    beVal ((fh.write ++ rest).take 4) = fh.length % 4294967296 ∧
    (fh.write ++ rest).drop 10 = rest := by
  constructor
  · have h4 : (be32 fh.length).length = 4 := by simp [be32]
    have : (fh.write ++ rest).take 4 = be32 fh.length := by
      simp only [FrameHeader.write, List.append_assoc]
      rw [← h4, List.take_left]
    rw [this, beVal_be32]
  · have h10 : fh.write.length = 10 := frameHeader_write_length fh
    rw [← h10, List.drop_left]

/-! Claim theorems. -/

/-- C1: the header serializer does not emit 9 bytes with a 3-byte length
field; `binary.Write` of the struct emits 10 bytes, the length occupying a
full 4-byte big-endian word, and the reserved bit of the stream-id word is
written through unmasked. -/
theorem frameHeader_write_emits_ten_bytes :
    (∀ fh : FrameHeader, fh.write.length = 10) ∧
    FrameHeader.write { length := 0, type := 0, flags := 0, streamId := 1 } =
      [0, 0, 0, 0, 0, 0, 0, 0, 0, 1] := by
  exact ⟨frameHeader_write_length, rfl⟩

/-- C2: round-trip fails for a PADDED HEADERS frame: the writer never emits
a pad-length byte but the reader consumes one, so the decoded header block
loses its first byte. -/
theorem headers_roundtrip_mangles_padded_block :
    headersFrameRoundTrip
        { header := { length := 2, type := 1, flags := 8, streamId := 1 },
          priority := 0, headerBlock := [0, 7] } =
      .ok ({ header := { length := 2, type := 1, flags := 8, streamId := 1 },
             priority := 0, headerBlock := [7] }, []) ∧
    ([7] : List Nat) ≠ [0, 7] := by
  exact ⟨rfl, by decide⟩

/-- C3: the settings decoder iterates `length / 5` 5-byte entries (1-byte id
+ 4-byte value), not `length / 6` 6-byte entries: on the RFC-shaped 6-byte
entry `00 03 00 00 00 64` with declared length 6 it produces one entry with
id 0 and value 0x03000000, leaving a byte unconsumed, and a length of 5 (not
a multiple of 6) is accepted without error. -/
theorem settings_read_uses_five_byte_entries :
    SettingsFrame.read { length := 6, type := 4, flags := 0, streamId := 0 }
        [0, 3, 0, 0, 0, 100] =
      .ok ({ header := { length := 6, type := 4, flags := 0, streamId := 0 },
             settings := [{ settingsId := 0, value := 50331648 }] }, [100]) ∧
    SettingsFrame.read { length := 5, type := 4, flags := 0, streamId := 0 }
        [1, 0, 0, 255, 255] =
      .ok ({ header := { length := 5, type := 4, flags := 0, streamId := 0 },
             settings := [{ settingsId := 1, value := 65535 }] }, []) := by
  exact ⟨rfl, rfl⟩

/-- C4: the DATA decoder never takes the padded branch (it compares
`Flags&PADDED` with 1, but `PADDED` is 8) and trims by the outer,
never-assigned pad length 0, so a PADDED DATA frame of length 3 with pad
byte 1 decodes to all three payload bytes instead of the 1-byte data prefix,
and no ProtocolError is possible. -/
theorem data_read_ignores_padded_flag :
    DataFrame.read { length := 3, type := 0, flags := 8, streamId := 1 }
        [1, 97, 98] =
      .ok ({ header := { length := 3, type := 0, flags := 8, streamId := 1 },
             data := [1, 97, 98] }, []) ∧
    (8 : Nat) &&& PADDED ≠ 1 := by
  exact ⟨rfl, by decide⟩

/-- C5: the header reader consumes 10 bytes, not 9, and performs no masking:
a stream-id word with the reserved bit set decodes to a value at least
`2^31`, and a 9-byte input fails with a short read instead of parsing. -/
theorem frameHeader_read_keeps_reserved_bit :
    FrameHeader.read [0, 0, 0, 0, 0, 0, 128, 0, 0, 1] =
      .ok ({ length := 0, type := 0, flags := 0, streamId := 2147483649 }, []) ∧
    2 ^ 31 ≤ 2147483649 ∧
    FrameHeader.read [0, 0, 0, 0, 0, 0, 128, 0, 1] = .error .shortRead := by
  exact ⟨rfl, by norm_num, rfl⟩

/-- C6 counterexample: a DATA frame whose header says length 5 but whose
payload is empty is written with a length field of 5 and zero payload bytes,
so the emitted length field does not equal the payload byte count. -/
theorem data_write_length_field_mismatch :
    beVal ((DataFrame.write
        { header := { length := 5, type := 0, flags := 0, streamId := 1 },
          data := [] }).take 4) = 5 ∧
    ((DataFrame.write
        { header := { length := 5, type := 0, flags := 0, streamId := 1 },
          data := [] }).drop 10).length = 0 ∧
    (5 : Nat) ≠ 0 := by
  exact ⟨rfl, rfl, by decide⟩

/-- C6 amended: every embedded frame writer (DATA, HEADERS, RST_STREAM,
SETTINGS) copies the caller-supplied header length field into the emitted
header verbatim (as a full 32-bit big-endian word) and emits its payload
unchanged after the 10-byte header; nothing is recomputed from the payload,
so the length field matches the payload byte count only when the caller set
the length field to the payload size. -/
theorem write_copies_caller_length :
    (∀ f : DataFrame,
      beVal (f.write.take 4) = f.header.length % 4294967296 ∧
      f.write.drop 10 = f.data.map (fun b => b % 256)) ∧
    (∀ f : HeadersFrame,
      beVal (f.write.take 4) = f.header.length % 4294967296 ∧
      f.write.drop 10 =
        (if f.header.flags &&& PRIORITY = PRIORITY then be32 f.priority else []) ++
          f.headerBlock.map (fun b => b % 256)) ∧
    (∀ f : RstStreamFrame,
      beVal (f.write.take 4) = f.header.length % 4294967296 ∧
      f.write.drop 10 = be32 f.errorCode) ∧
    (∀ f : SettingsFrame,
      beVal (f.write.take 4) = f.header.length % 4294967296 ∧
      f.write.drop 10 =
        (f.settings.map (fun s => [s.settingsId % 256] ++ be32 s.value)).flatten) := by
  refine ⟨fun f => ?_, fun f => ?_, fun f => ?_, fun f => ?_⟩
  · simpa only [DataFrame.write] using
      headerWrite_prefix f.header (f.data.map (fun b => b % 256))
  · simpa only [HeadersFrame.write] using
      headerWrite_prefix f.header
        ((if f.header.flags &&& PRIORITY = PRIORITY then be32 f.priority else []) ++
          f.headerBlock.map (fun b => b % 256))
  · simpa only [RstStreamFrame.write] using
      headerWrite_prefix f.header (be32 f.errorCode)
  · simpa only [SettingsFrame.write] using
      headerWrite_prefix f.header
        ((f.settings.map (fun s => [s.settingsId % 256] ++ be32 s.value)).flatten)

/-- C7 counterexample: a RST_STREAM frame whose header declares length 5
decodes successfully, consuming exactly 4 bytes, instead of failing with
FrameSizeError. -/
theorem rst_read_accepts_length_five :
    RstStreamFrame.read { length := 5, type := 3, flags := 0, streamId := 1 }
        [0, 0, 0, 8, 99] =
      .ok ({ header := { length := 5, type := 3, flags := 0, streamId := 1 },
             errorCode := 8 }, [99]) := by
  exact rfl

/-- C7 amended: the RST_STREAM decoder reads exactly 4 bytes as a big-endian
error code and ignores the declared header length entirely; whenever at
least 4 bytes are available it succeeds, for any declared length, and no
FrameSizeError is ever raised. -/
theorem rst_read_ignores_declared_length (h : FrameHeader) (input : List Nat)
    (hlen : 4 ≤ input.length) :
    RstStreamFrame.read h input =
      .ok ({ header := h, errorCode := beVal (input.take 4) }, input.drop 4) := by
  simp only [RstStreamFrame.read, readBytes, if_pos hlen]
  rfl

/-- C7 witness: the amended theorem at a concrete 4-byte input. -/
theorem rst_read_ignores_declared_length_witness :
    RstStreamFrame.read { length := 4, type := 3, flags := 0, streamId := 1 }
        [0, 0, 0, 3] =
      .ok ({ header := { length := 4, type := 3, flags := 0, streamId := 1 },
             errorCode := 3 }, []) := by
  have h := rst_read_ignores_declared_length
    { length := 4, type := 3, flags := 0, streamId := 1 } [0, 0, 0, 3] (by decide)
  simpa using h

/-- C8: a PADDED HEADERS frame whose pad-length byte (5) exceeds the
remaining payload does not fail with ProtocolError: the slice
`data[:len(data)-int(padLen)]` goes out of bounds, a runtime panic; and with
`PADDED` set and declared length 0 the `uint32` length underflows to
`2^32 - 1` and decoding fails with a short read, again not ProtocolError. -/
theorem headers_read_padding_overflow_panics :
    HeadersFrame.read { length := 2, type := 1, flags := 8, streamId := 1 }
        [5, 97] = .error .sliceBounds ∧
    HeadersFrame.read { length := 0, type := 1, flags := 8, streamId := 1 }
        [0] = .error .shortRead := by
  exact ⟨rfl, rfl⟩

/-- C9: the string table in `ErrorCode.String` lists PROTOCOL_ERROR twice,
shifting every later name one slot past its constant: the constant
`INTERNAL_ERROR` is 2 but code 2 renders as "PROTOCOL_ERROR", not
"INTERNAL_ERROR", and `INADEQUATE_SECURITY = 12` renders one slot away at
index 13 of the 14-entry table. -/
theorem errorCode_string_shifted_by_duplicate :
    INTERNAL_ERROR = 2 ∧
    errorCodeString 2 = some "PROTOCOL_ERROR" ∧
    errorCodeString 2 ≠ some "INTERNAL_ERROR" ∧
    INADEQUATE_SECURITY = 12 ∧
    errorCodeString 12 = some "ENHANCE_YOUR_CALM" ∧
    errorCodeString 13 = some "INADEQUATE_SECURITY" := by
  exact ⟨rfl, rfl, by decide, rfl, rfl, rfl⟩

/-- C10: `FrameName` is a direct index into a fixed 10-entry table, so it is
defined exactly for type codes 0 through 9 and yields no name for any code
10 or larger. -/
theorem frameName_defined_only_below_ten :
    (∀ i : Nat, 10 ≤ i → FrameName i = none) ∧
    FrameName 0 = some "DATA" ∧
    FrameName 9 = some "CONTINUATION" := by
  refine ⟨fun i hi => ?_, rfl, rfl⟩
  have hlen : frameNameTable.length = 10 := rfl
  simp [FrameName, List.get?_eq_none, hlen, hi]

/-- C10 witness: the theorem applied at type code 10. -/
theorem frameName_defined_only_below_ten_witness :
    FrameName 10 = none := by
  exact frameName_defined_only_below_ten.1 10 (by decide)
